import Mathlib

/-!
Verification of the OpenXR loader's runtime interface
(`src/loader/runtime_interface.cpp`).

The development shallowly embeds the loader core: result codes are integers
with the `XR_SUCCEEDED`/`XR_FAILED` sign tests, the version-packing macros
are arithmetic on `Nat`, external collaborators (manifest enumeration, the
platform dynamic-library primitives, the runtime's negotiation entry point,
and the runtime's instance entry points) are modelled as data describing
what each call would return, and the mutable loader state is threaded
explicitly.  Event traces (library-open attempts, `xrDestroyInstance`
invocations) record the calls the loader makes into its collaborators.
-/

/-! ## Result codes (`openxr.h`)

`XrResult` is a C enum; success is `result >= 0`. -/

def XR_SUCCESS : Int := 0
def XR_ERROR_VALIDATION_FAILURE : Int := -1
def XR_ERROR_RUNTIME_FAILURE : Int := -2
def XR_ERROR_INITIALIZATION_FAILED : Int := -6
def XR_ERROR_INSTANCE_LOST : Int := -13
def XR_ERROR_FILE_ACCESS_ERROR : Int := -23
def XR_ERROR_FILE_CONTENTS_INVALID : Int := -24

/-- Macro `XR_SUCCEEDED(result)` is `((result) >= 0)`. -/
def XR_SUCCEEDED (r : Int) : Bool := decide (0 ≤ r)

/-- Macro `XR_FAILED(result)` is `((result) < 0)`. -/
def XR_FAILED (r : Int) : Bool := decide (r < 0)

/-! ## Version packing (`openxr.h`)

`XR_MAKE_VERSION` packs `major`/`minor` into bits 48..63 / 32..47 and
`patch` into bits 0..31 of a `uint64_t`.  The three masked fields occupy
disjoint bit ranges, so the C bitwise-or is ordinary addition here. -/

def XR_MAKE_VERSION (major minor patch : Nat) : Nat :=
  (major % 65536) * 2 ^ 48 + (minor % 65536) * 2 ^ 32 + patch % 4294967296

/-- Macro `XR_VERSION_MAJOR(version)`: `(uint16_t)((version >> 48) & 0xffffULL)`. -/
def XR_VERSION_MAJOR (v : Nat) : Nat := v / 2 ^ 48 % 65536

/-- Macro `XR_VERSION_MINOR(version)`: `(uint16_t)((version >> 32) & 0xffffULL)`. -/
def XR_VERSION_MINOR (v : Nat) : Nat := v / 2 ^ 32 % 65536

/-- The loader's own API version; a 1.0.x release. -/
def XR_CURRENT_API_VERSION : Nat := XR_MAKE_VERSION 1 0 17

/-- Constant `XR_CURRENT_LOADER_RUNTIME_VERSION` (`loader_interfaces.h`). -/
def XR_CURRENT_LOADER_RUNTIME_VERSION : Nat := 1

/-! ## Extension properties and the reconciliation loop
(`RuntimeInterface::GetInstanceExtensionProperties`, lines 330-366). -/

/-- The two fields of `XrExtensionProperties` the loader reads or writes
(`type`/`next` are wire bookkeeping). -/
structure XrExtensionProperties where
  extensionName : String
  extensionVersion : Nat
deriving DecidableEq, Repr

/-- Inner loop of the merge (lines 350-361): scan the first `n` entries of
`props` for the first entry whose name equals `ext`'s name; overwrite that
entry's version with `ext`'s and stop.  Returns the updated list and the
`found` flag. -/
def updateFirstMatch : List XrExtensionProperties → Nat → XrExtensionProperties →
    List XrExtensionProperties × Bool
  | [], _, _ => ([], false)
  | p :: ps, 0, _ => (p :: ps, false)
  | p :: ps, Nat.succ n, ext =>
    if p.extensionName = ext.extensionName then
      ({ p with extensionVersion := ext.extensionVersion } :: ps, true)
    else
      let r := updateFirstMatch ps n ext
      (p :: r.1, r.2)

/-- Outer loop of the merge (lines 348-365): for each runtime-reported
extension, update the first matching entry among the first `propsCount`
entries of the candidate list, or append it when unmatched.  `propsCount`
is the candidate list's size captured once, before the loop (line 349). -/
def mergeLoop (props : List XrExtensionProperties) :
    List XrExtensionProperties → Nat → List XrExtensionProperties
  | [], _ => props
  | ext :: rest, propsCount =>
    let r := updateFirstMatch props propsCount ext
    mergeLoop (if r.2 then r.1 else r.1 ++ [ext]) rest propsCount

/-- Source `RuntimeInterface::GetInstanceExtensionProperties`: `runtimeExts` is the
list the runtime reports through the two-call enumerate convention
(lines 335-347); `props` is the caller's mutable candidate list. -/
def getInstanceExtensionProperties (runtimeExts props : List XrExtensionProperties) :
    List XrExtensionProperties :=
  mergeLoop props runtimeExts props.length

/-! ### Claim-side description of the merge (spec wording, for refinement) -/

/-- One candidate entry updated per the source's inner loop body: a name
match takes the runtime's version, otherwise the entry is unchanged. -/
def updVersion (ext c : XrExtensionProperties) : XrExtensionProperties :=
  if c.extensionName = ext.extensionName then
    { c with extensionVersion := ext.extensionVersion }
  else c

/-- Spec wording, per candidate entry: if the runtime reports an extension
of the same name, that entry's version becomes the runtime's; otherwise the
entry keeps the caller-supplied version. -/
def specUpd (rts : List XrExtensionProperties) (c : XrExtensionProperties) :
    XrExtensionProperties :=
  match rts.find? (fun r => r.extensionName == c.extensionName) with
  | some r => { c with extensionVersion := r.extensionVersion }
  | none => c

/-- Spec wording for the whole merge: original candidate order preserved
with versions reconciled, then the backend-only extensions appended in
backend-reported order. -/
def specMergedExtensions (cands rts : List XrExtensionProperties) :
    List XrExtensionProperties :=
  cands.map (specUpd rts) ++
    rts.filter (fun r => cands.all (fun c => c.extensionName != r.extensionName))

theorem updVersion_name (ext c : XrExtensionProperties) :
    (updVersion ext c).extensionName = c.extensionName := by
  unfold updVersion; split <;> rfl

theorem updateFirstMatch_zero (xs : List XrExtensionProperties) (ext : XrExtensionProperties) :
    updateFirstMatch xs 0 ext = (xs, false) := by
  cases xs <;> rfl

theorem updateFirstMatch_map_name (ext : XrExtensionProperties) :
    ∀ (ps : List XrExtensionProperties) (n : Nat),
      (updateFirstMatch ps n ext).1.map (fun p => p.extensionName) =
        ps.map (fun p => p.extensionName)
  | [], n => by cases n <;> rfl
  | p :: ps, 0 => rfl
  | p :: ps, Nat.succ n => by
    by_cases h : p.extensionName = ext.extensionName
    · simp [updateFirstMatch, h]
    · simp [updateFirstMatch, h, updateFirstMatch_map_name ext ps n]

theorem map_updVersion_of_no_match (ext : XrExtensionProperties) :
    ∀ cs : List XrExtensionProperties,
      (∀ c ∈ cs, c.extensionName ≠ ext.extensionName) → cs.map (updVersion ext) = cs
  | [], _ => rfl
  | c :: cs, h => by
    have hc : c.extensionName ≠ ext.extensionName := h c (by simp)
    have ih := map_updVersion_of_no_match ext cs (fun c' hc' => h c' (by simp [hc']))
    simp [updVersion, hc, ih]

/-- With distinct candidate names, a full-bound scan is the pointwise
update, and the `found` flag is a membership test. -/
theorem updateFirstMatch_of_nodup (ext : XrExtensionProperties) :
    ∀ cs : List XrExtensionProperties,
      (cs.map (fun c => c.extensionName)).Nodup →
      updateFirstMatch cs cs.length ext =
        (cs.map (updVersion ext), cs.any (fun c => c.extensionName == ext.extensionName))
  | [], _ => rfl
  | c :: cs, h => by
    rw [List.map_cons, List.nodup_cons] at h
    by_cases hc : c.extensionName = ext.extensionName
    · have hrest : ∀ c' ∈ cs, c'.extensionName ≠ ext.extensionName := by
        intro c' hc' heq
        exact h.1 (by rw [hc, ← heq]; exact List.mem_map_of_mem _ hc')
      simp [updateFirstMatch, List.length_cons, hc, updVersion,
        map_updVersion_of_no_match ext cs hrest]
    · have ih := updateFirstMatch_of_nodup ext cs h.2
      simp [updateFirstMatch, List.length_cons, hc, ih, updVersion]

/-- A scan bounded by the length of the list's front segment never looks at
the appended tail. -/
theorem updateFirstMatch_append (app : List XrExtensionProperties)
    (ext : XrExtensionProperties) :
    ∀ cs : List XrExtensionProperties,
      updateFirstMatch (cs ++ app) cs.length ext =
        ((updateFirstMatch cs cs.length ext).1 ++ app,
          (updateFirstMatch cs cs.length ext).2)
  | [] => by simp [updateFirstMatch_zero]
  | c :: cs => by
    by_cases h : c.extensionName = ext.extensionName
    · simp [updateFirstMatch, h]
    · simp [updateFirstMatch, h, updateFirstMatch_append app ext cs]

/-- Processing the head of the runtime list first and then looking the rest
up is the same as looking the whole runtime list up, provided no later
runtime entry repeats the head's name. -/
theorem specUpd_cons (r : XrExtensionProperties) (rest : List XrExtensionProperties)
    (c : XrExtensionProperties)
    (hr : ∀ r' ∈ rest, r'.extensionName ≠ r.extensionName) :
    specUpd rest (updVersion r c) = specUpd (r :: rest) c := by
  by_cases h : c.extensionName = r.extensionName
  · have hb : (r.extensionName == c.extensionName) = true := by simp [beq_iff_eq, h]
    have hnone : rest.find?
        (fun r' => r'.extensionName == (updVersion r c).extensionName) = none := by
      rw [List.find?_eq_none]
      intro r' hr'
      simp only [beq_iff_eq, updVersion_name]
      rw [h]
      exact hr r' hr'
    unfold specUpd
    rw [List.find?_cons, hb, hnone]
    simp [updVersion, h]
  · have hb : (r.extensionName == c.extensionName) = false := by
      simp only [beq_eq_false_iff_ne, ne_eq]
      exact fun heq => h heq.symm
    have hupd : updVersion r c = c := by simp [updVersion, h]
    unfold specUpd
    rw [hupd, List.find?_cons, hb]

theorem all_names_eq (r : XrExtensionProperties) :
    ∀ cs : List XrExtensionProperties,
      cs.all (fun c => c.extensionName != r.extensionName) =
        (cs.map (fun c => c.extensionName)).all (fun n => n != r.extensionName)
  | [] => rfl
  | c :: cs => by simp [all_names_eq r cs]

/-- The appended-tail filter only depends on the candidate names. -/
theorem filter_no_match_congr {cs cs' : List XrExtensionProperties}
    (h : cs.map (fun c => c.extensionName) = cs'.map (fun c => c.extensionName))
    (rts : List XrExtensionProperties) :
    rts.filter (fun r => cs.all (fun c => c.extensionName != r.extensionName)) =
      rts.filter (fun r => cs'.all (fun c => c.extensionName != r.extensionName)) := by
  apply List.filter_congr
  intro r _
  rw [all_names_eq, all_names_eq, h]

/-- Candidate-side "no name matches" is the negation of the source's
`found` condition. -/
theorem all_bne_eq_not_any_beq (r : XrExtensionProperties) :
    ∀ cs : List XrExtensionProperties,
      (cs.all fun c => c.extensionName != r.extensionName) =
        !(cs.any fun c => c.extensionName == r.extensionName)
  | [] => rfl
  | c :: cs => by
    rw [List.all_cons, List.any_cons, all_bne_eq_not_any_beq r cs, Bool.not_or]
    rfl

/-- Full characterization of the merge loop: with duplicate-free names on
both sides, running the source loop on `cs ++ app` with scan bound
`cs.length` reconciles `cs` pointwise against the runtime list and appends
the unmatched runtime entries after `app`. -/
theorem mergeLoop_characterization :
    ∀ (rts cs app : List XrExtensionProperties),
      (cs.map (fun c => c.extensionName)).Nodup →
      (rts.map (fun r => r.extensionName)).Nodup →
      mergeLoop (cs ++ app) rts cs.length =
        cs.map (specUpd rts) ++ app ++
          rts.filter (fun r => cs.all (fun c => c.extensionName != r.extensionName))
  | [], cs, app, _, _ => by
    have hid : cs.map (specUpd []) = cs := by
      have h1 : cs.map (specUpd []) = cs.map (fun c => c) :=
        List.map_congr_left (fun c _ => rfl)
      rw [h1, List.map_id']
    simp [mergeLoop, hid]
  | r :: rest, cs, app, hc, hr => by
    rw [List.map_cons, List.nodup_cons] at hr
    have hrest : ∀ r' ∈ rest, r'.extensionName ≠ r.extensionName := by
      intro r' hr' heq
      exact hr.1 (by rw [← heq]; exact List.mem_map_of_mem _ hr')
    have hsplit := updateFirstMatch_append app r cs
    have hnod := updateFirstMatch_of_nodup r cs hc
    have hnames : (cs.map (updVersion r)).map (fun c => c.extensionName) =
        cs.map (fun c => c.extensionName) := by
      rw [List.map_map]
      exact List.map_congr_left (fun c _ => updVersion_name r c)
    have hlen : (cs.map (updVersion r)).length = cs.length := List.length_map cs _
    have hnodup' : ((cs.map (updVersion r)).map (fun c => c.extensionName)).Nodup := by
      rw [hnames]; exact hc
    have hmapspec : (cs.map (updVersion r)).map (specUpd rest) =
        cs.map (specUpd (r :: rest)) := by
      rw [List.map_map]
      exact List.map_congr_left (fun c _ => specUpd_cons r rest c hrest)
    have hfilter :
        rest.filter (fun r' => (cs.map (updVersion r)).all
            (fun c => c.extensionName != r'.extensionName)) =
          rest.filter (fun r' => cs.all (fun c => c.extensionName != r'.extensionName)) :=
      filter_no_match_congr hnames rest
    by_cases hf : (cs.any fun c => c.extensionName == r.extensionName) = true
    · -- the head runtime extension matches a candidate: version overwritten
      have hkeep : (cs.all fun c => c.extensionName != r.extensionName) = false := by
        rw [all_bne_eq_not_any_beq, hf]; rfl
      have ih := mergeLoop_characterization rest (cs.map (updVersion r)) app hnodup' hr.2
      rw [hlen] at ih
      simp only [mergeLoop, hsplit, hnod, hf, if_true]
      rw [ih, hmapspec, hfilter]
      simp [List.filter_cons, hkeep]
    · -- no candidate matches: the runtime extension is appended
      have hf2 : (cs.any fun c => c.extensionName == r.extensionName) = false :=
        Bool.eq_false_iff.mpr hf
      have hkeep : (cs.all fun c => c.extensionName != r.extensionName) = true := by
        rw [all_bne_eq_not_any_beq, hf2]; rfl
      have ih := mergeLoop_characterization rest (cs.map (updVersion r)) (app ++ [r])
        hnodup' hr.2
      rw [hlen] at ih
      simp only [mergeLoop, hsplit, hnod, hf2, if_false, Bool.false_eq_true]
      rw [List.append_assoc (cs.map (updVersion r)) app [r], ih, hmapspec, hfilter]
      simp [List.filter_cons, hkeep, List.append_assoc]

/-- C7: Extension reconciliation.  For every caller-supplied candidate list
and every backend-reported list (with duplicate-free names on each side, as
extension names are unique identifiers), each backend-reported extension
whose name exactly matches a candidate entry has that entry's version
overwritten with the backend's version; each backend-reported extension
with no matching candidate is appended; candidate entries not reported by
the backend keep their supplied version; original candidate order is
preserved and backend-only entries are appended in backend-reported
order — i.e. the source merge equals the spec-side merge. -/
theorem extension_merge_matches_claim (cands rts : List XrExtensionProperties)
    (hc : (cands.map (fun c => c.extensionName)).Nodup)
    (hr : (rts.map (fun r => r.extensionName)).Nodup) :
    getInstanceExtensionProperties rts cands = specMergedExtensions cands rts := by
  have h := mergeLoop_characterization rts cands [] hc hr
  rw [List.append_nil] at h
  simpa [getInstanceExtensionProperties, specMergedExtensions] using h

/-- Sample candidate list from the spec's merge example. -/
def candsExample : List XrExtensionProperties := [⟨"A", 1⟩, ⟨"B", 1⟩]

/-- Sample backend-reported list from the spec's merge example. -/
def runtimeExtsExample : List XrExtensionProperties := [⟨"B", 2⟩, ⟨"C", 1⟩]

/-- Witness for C7 at the spec's own example: `[{A,1},{B,1}]` merged with
backend-reported `[{B,2},{C,1}]` gives `[{A,1},{B,2},{C,1}]`. -/
theorem extension_merge_matches_claim_witness :
    (candsExample.map (fun c => c.extensionName)).Nodup ∧
    (runtimeExtsExample.map (fun r => r.extensionName)).Nodup ∧
    getInstanceExtensionProperties runtimeExtsExample candsExample =
      specMergedExtensions candsExample runtimeExtsExample ∧
    getInstanceExtensionProperties runtimeExtsExample candsExample =
      [⟨"A", 1⟩, ⟨"B", 2⟩, ⟨"C", 1⟩] :=
  ⟨by decide, by decide,
   extension_merge_matches_claim candsExample runtimeExtsExample (by decide) (by decide),
   by decide⟩

/-! ## Negotiation and the load scan
(`RuntimeInterface::TryLoadingSingleRuntime`, lines 108-242, and
`RuntimeInterface::LoadRuntime`, lines 244-282).

A candidate manifest is modelled by what its external collaborators would
return: whether `LoaderPlatformLibraryOpen` yields a handle, whether the
`xrInitializeLoaderKHR` symbol resolves and what the forwarded call
returns, whether the `xrNegotiateLoaderRuntimeInterface` symbol resolves,
what that call returns, and the response fields it writes.  The
`XR_KHR_LOADER_INIT_SUPPORT` preprocessor configuration is the `sup`
parameter; the `LoaderInitData.initialized` flag is `ini`. -/

/-- Response fields of `XrNegotiateRuntimeRequest` written by the runtime's
negotiation entry point.  `getInstanceProcAddrIsNull` models
`runtime_info.getInstanceProcAddr == nullptr`;  the two version fields are
the `uint32_t` / packed `uint64_t` values. -/
structure XrNegotiateRuntimeRequest where
  getInstanceProcAddrIsNull : Bool
  runtimeInterfaceVersion : Nat
  runtimeApiVersion : Nat
deriving DecidableEq, Repr

/-- Request fields of `XrNegotiateLoaderInfo` (lines 154-161); built by the
loader, identical for every candidate. -/
structure XrNegotiateLoaderInfo where
  minInterfaceVersion : Nat
  maxInterfaceVersion : Nat
  minApiVersion : Nat
  maxApiVersion : Nat
deriving DecidableEq, Repr

/-- The request the loader fills in at lines 154-161. -/
def negotiationLoaderInfo : XrNegotiateLoaderInfo :=
  { minInterfaceVersion := 1
    maxInterfaceVersion := XR_CURRENT_LOADER_RUNTIME_VERSION
    minApiVersion := XR_MAKE_VERSION 1 0 0
    maxApiVersion := XR_MAKE_VERSION 1 0x3ff 0xfff }

/-- One candidate runtime manifest together with the behaviour of the
external calls made on its behalf. -/
structure RuntimeManifestFile where
  /-- Whether `LoaderPlatformLibraryOpen(LibraryPath())` returns a non-null handle. -/
  openOk : Bool
  /-- the `xrInitializeLoaderKHR` symbol resolves (loader-init platforms). -/
  hasInitializeFn : Bool
  /-- result of the forwarded `xrInitializeLoaderKHR` call. -/
  initializeResult : Int
  /-- the `xrNegotiateLoaderRuntimeInterface` symbol resolves. -/
  hasNegotiateFn : Bool
  /-- result returned by the negotiation entry point. -/
  negotiateResult : Int
  /-- response fields written by the negotiation entry point. -/
  runtimeInfo : XrNegotiateRuntimeRequest
  /-- extension properties the runtime reports after a successful load. -/
  runtimeExtensions : List XrExtensionProperties
deriving DecidableEq, Repr

/-- Validation of a successful negotiation response (lines 177-201): the
checks that downgrade a succeeded `res` to `XR_ERROR_FILE_CONTENTS_INVALID`.
`res` is the value returned by the negotiate call. -/
def validateNegotiationResponse (info : XrNegotiateRuntimeRequest) (res : Int) : Int :=
  let runtime_major := XR_VERSION_MAJOR info.runtimeApiVersion
  let runtime_minor := XR_VERSION_MINOR info.runtimeApiVersion
  let loader_major := XR_VERSION_MAJOR XR_CURRENT_API_VERSION
  if info.getInstanceProcAddrIsNull then
    XR_ERROR_FILE_CONTENTS_INVALID
  else if info.runtimeInterfaceVersion ≤ 0 ∨
      XR_CURRENT_LOADER_RUNTIME_VERSION < info.runtimeInterfaceVersion then
    XR_ERROR_FILE_CONTENTS_INVALID
  else if runtime_major ≠ loader_major ∨ (runtime_major = 0 ∧ runtime_minor = 0) then
    XR_ERROR_FILE_CONTENTS_INVALID
  else res

/-- Negotiation outcome for one candidate (lines 169-201): `res` starts as
`XR_ERROR_RUNTIME_FAILURE`, is replaced by the negotiate call's result when
the symbol resolved, and a succeeded result then runs response validation. -/
def candidateNegotiationResult (mf : RuntimeManifestFile) : Int :=
  let res := if mf.hasNegotiateFn then mf.negotiateResult else XR_ERROR_RUNTIME_FAILURE
  if XR_SUCCEEDED res then validateNegotiationResponse mf.runtimeInfo res else res

/-- The bound session as built on acceptance (lines 226-237): the candidate
index stands for the constructed `RuntimeInterface` (library handle and
entry-point getter), and the supported-extension names are collected by
running `GetInstanceExtensionProperties` on an empty list. -/
structure RuntimeSessionModel where
  boundIdx : Nat
  supportedExtensions : List String
deriving DecidableEq, Repr

/-- State threaded through the scan: `inst` mirrors `GetInstance()`,
`anyLoaded` and `lastError` are the by-reference locals of `LoadRuntime`,
and `opened` is the event trace of candidate indices on which a library
open was attempted (line 111 runs unconditionally on entry). -/
structure ScanState where
  inst : Option RuntimeSessionModel
  anyLoaded : Bool
  lastError : Int
  opened : List Nat
deriving DecidableEq, Repr

/-- Source `RuntimeInterface::TryLoadingSingleRuntime` for the candidate at index
`idx`.  `sup` is the `XR_KHR_LOADER_INIT_SUPPORT` configuration. -/
def tryLoadingSingleRuntime (sup : Bool) (idx : Nat) (mf : RuntimeManifestFile)
    (s : ScanState) : ScanState :=
  -- line 111: LoaderPlatformLibraryOpen(manifest_file->LibraryPath())
  let s0 : ScanState := { s with opened := s.opened ++ [idx] }
  if !mf.openOk then
    -- lines 112-123: log and record XR_ERROR_INSTANCE_LOST if nothing loaded yet
    if !s0.anyLoaded then { s0 with lastError := XR_ERROR_INSTANCE_LOST } else s0
  else if sup && mf.hasInitializeFn && XR_FAILED mf.initializeResult then
    -- lines 125-147: forwarded xrInitializeLoaderKHR failed; note that
    -- line 140 assigns last_error without consulting any_loaded
    { s0 with lastError := mf.initializeResult }
  else
    let res := candidateNegotiationResult mf
    if XR_FAILED res then
      -- lines 202-212
      if !s0.anyLoaded then { s0 with lastError := res } else s0
    else
      -- lines 215-241: bind this runtime, cache its extension names,
      -- set any_loaded and clear last_error
      { inst := some
          { boundIdx := idx
            supportedExtensions :=
              (getInstanceExtensionProperties mf.runtimeExtensions []).map
                (fun p => p.extensionName) }
        anyLoaded := true
        lastError := XR_SUCCESS
        opened := s0.opened }

/-- The manifest loop of `LoadRuntime` (lines 267-269), with `i` the index
of the first remaining candidate.  Every candidate is visited; there is no
break. -/
def runScanFrom (sup : Bool) : Nat → List RuntimeManifestFile → ScanState → ScanState
  | _, [], s => s
  | i, mf :: rest, s => runScanFrom sup (i + 1) rest (tryLoadingSingleRuntime sup i mf s)

/-- What `RuntimeManifestFile::FindManifestFiles` produced: its result code
and the candidate list it filled in. -/
structure FindManifestFilesResult where
  result : Int
  files : List RuntimeManifestFile
deriving DecidableEq, Repr

/-- Observable outcome of `RuntimeInterface::LoadRuntime`: the returned
result, the bound session (`GetInstance()` afterwards), the library-open
trace, and whether `FindManifestFiles` was consulted at all. -/
structure LoadRuntimeOutcome where
  result : Int
  inst : Option RuntimeSessionModel
  opened : List Nat
  manifestConsulted : Bool
deriving DecidableEq, Repr

/-- Source `RuntimeInterface::LoadRuntime` (lines 244-282).  `prior` is the value
of `GetInstance()` on entry; `ini` models `LoaderInitData::initialized()`. -/
def loadRuntime (sup ini : Bool) (prior : Option RuntimeSessionModel)
    (find : FindManifestFilesResult) : LoadRuntimeOutcome :=
  match prior with
  | some sess =>
    -- lines 245-248: already loaded, done
    { result := XR_SUCCESS, inst := some sess, opened := [], manifestConsulted := false }
  | none =>
    if sup && !ini then
      -- lines 249-256
      { result := XR_ERROR_INITIALIZATION_FAILED, inst := none, opened := []
        manifestConsulted := false }
    else
      -- line 262: last_error starts as the FindManifestFiles result
      let s0 : ScanState := { inst := none, anyLoaded := false, lastError := find.result
                              opened := [] }
      let s1 : ScanState :=
        if XR_FAILED find.result then
          -- lines 263-266
          { s0 with lastError := XR_ERROR_FILE_ACCESS_ERROR }
        else
          runScanFrom sup 0 find.files s0
      -- lines 276-279: whenever nothing bound, last_error is overwritten
      -- with XR_ERROR_INSTANCE_LOST
      let s2 : ScanState :=
        if !s1.anyLoaded then { s1 with lastError := XR_ERROR_INSTANCE_LOST } else s1
      { result := s2.lastError, inst := s2.inst, opened := s2.opened
        manifestConsulted := true }

/-! ### Derived per-candidate and per-scan characterizations -/

theorem xr_succeeded_eq_not_failed (r : Int) : XR_SUCCEEDED r = !XR_FAILED r := by
  by_cases h : r < 0
  · simp [XR_SUCCEEDED, XR_FAILED, h, not_le.mpr h]
  · simp [XR_SUCCEEDED, XR_FAILED, h, not_lt.mp h]

/-- The candidate's forwarded `xrInitializeLoaderKHR` call is reached and
fails (only possible on a loader-init platform, after a successful open). -/
def preInitFailure (sup : Bool) (mf : RuntimeManifestFile) : Bool :=
  sup && mf.openOk && mf.hasInitializeFn && XR_FAILED mf.initializeResult

/-- This candidate reaches the acceptance block of
`TryLoadingSingleRuntime` (lines 215-241): its library opens, the pre-init
forwarding does not fail, and negotiation validates. -/
def candidateBinds (sup : Bool) (mf : RuntimeManifestFile) : Bool :=
  mf.openOk && !(sup && mf.hasInitializeFn && XR_FAILED mf.initializeResult) &&
    XR_SUCCEEDED (candidateNegotiationResult mf)

/-- The error a failing candidate records (or would record): instance lost
for an open failure, the forwarded init result for a pre-init failure, and
the negotiation result otherwise. -/
def candidateFailureCode (sup : Bool) (mf : RuntimeManifestFile) : Int :=
  if !mf.openOk then XR_ERROR_INSTANCE_LOST
  else if sup && mf.hasInitializeFn && XR_FAILED mf.initializeResult then
    mf.initializeResult
  else candidateNegotiationResult mf

/-- The session constructed when the candidate at `idx` is accepted. -/
def boundSessionModel (idx : Nat) (mf : RuntimeManifestFile) : RuntimeSessionModel :=
  { boundIdx := idx
    supportedExtensions :=
      (getInstanceExtensionProperties mf.runtimeExtensions []).map
        (fun p => p.extensionName) }

/-- Closed-form behaviour of one `TryLoadingSingleRuntime` call: an
accepted candidate replaces the session and clears the error; a failing
candidate leaves the session alone and touches the error slot exactly when
nothing is bound yet or the failure is a pre-init failure. -/
theorem tryLoadingSingleRuntime_eq (sup : Bool) (idx : Nat) (mf : RuntimeManifestFile)
    (s : ScanState) :
    tryLoadingSingleRuntime sup idx mf s =
      if candidateBinds sup mf then
        { inst := some (boundSessionModel idx mf), anyLoaded := true
          lastError := XR_SUCCESS, opened := s.opened ++ [idx] }
      else
        { inst := s.inst, anyLoaded := s.anyLoaded
          lastError :=
            if s.anyLoaded && !preInitFailure sup mf then s.lastError
            else candidateFailureCode sup mf
          opened := s.opened ++ [idx] } := by
  unfold tryLoadingSingleRuntime candidateBinds preInitFailure candidateFailureCode
    boundSessionModel
  by_cases ho : mf.openOk
  · by_cases hi : (sup && (mf.hasInitializeFn && XR_FAILED mf.initializeResult)) = true
    · simp only [ho, Bool.not_true, Bool.and_assoc, hi, Bool.and_true, Bool.true_and,
        Bool.and_false, Bool.false_and, Bool.and_not_self, Bool.not_false]
      simp [hi]
    · have hi' : (sup && (mf.hasInitializeFn && XR_FAILED mf.initializeResult)) = false :=
        Bool.eq_false_iff.mpr hi
      by_cases hn : XR_FAILED (candidateNegotiationResult mf) = true
      · have hs : XR_SUCCEEDED (candidateNegotiationResult mf) = false := by
          rw [xr_succeeded_eq_not_failed, hn]; rfl
        by_cases ha : s.anyLoaded <;>
          simp [ho, Bool.and_assoc, hi', hn, hs, ha]
      · have hn' : XR_FAILED (candidateNegotiationResult mf) = false :=
          Bool.eq_false_iff.mpr hn
        have hs : XR_SUCCEEDED (candidateNegotiationResult mf) = true := by
          rw [xr_succeeded_eq_not_failed, hn']; rfl
        simp [ho, Bool.and_assoc, hi', hn', hs]
  · have ho' : mf.openOk = false := Bool.eq_false_iff.mpr ho
    by_cases ha : s.anyLoaded <;> simp [ho', ha]

theorem tryLoadingSingleRuntime_opened (sup : Bool) (idx : Nat)
    (mf : RuntimeManifestFile) (s : ScanState) :
    (tryLoadingSingleRuntime sup idx mf s).opened = s.opened ++ [idx] := by
  rw [tryLoadingSingleRuntime_eq]; split <;> rfl

/-- Index of the last candidate, counting from `i`, that would be accepted. -/
def lastBindFrom (sup : Bool) : Nat → List RuntimeManifestFile → Option Nat
  | _, [] => none
  | i, mf :: rest =>
    match lastBindFrom sup (i + 1) rest with
    | some j => some j
    | none => if candidateBinds sup mf then some i else none

/-- Left-biased choice on optional indices. -/
def orIdx : Option Nat → Option Nat → Option Nat
  | some j, _ => some j
  | none, d => d

/-- The scan attempts a library open on every remaining candidate, in
order: nothing ever aborts the loop. -/
theorem runScanFrom_opened (sup : Bool) :
    ∀ (files : List RuntimeManifestFile) (i : Nat) (s : ScanState),
      (runScanFrom sup i files s).opened = s.opened ++ List.range' i files.length
  | [], i, s => by simp [runScanFrom]
  | mf :: rest, i, s => by
    rw [runScanFrom, runScanFrom_opened sup rest (i + 1) (tryLoadingSingleRuntime sup i mf s),
      tryLoadingSingleRuntime_opened, List.length_cons, List.range'_succ]
    simp

/-- A backend ends up bound exactly when the prior state was bound or some
remaining candidate is accepted. -/
theorem runScanFrom_anyLoaded (sup : Bool) :
    ∀ (files : List RuntimeManifestFile) (i : Nat) (s : ScanState),
      (runScanFrom sup i files s).anyLoaded =
        (s.anyLoaded || files.any (fun mf => candidateBinds sup mf))
  | [], i, s => by simp [runScanFrom]
  | mf :: rest, i, s => by
    rw [runScanFrom, runScanFrom_anyLoaded sup rest (i + 1) (tryLoadingSingleRuntime sup i mf s)]
    rw [tryLoadingSingleRuntime_eq]
    cases hb : candidateBinds sup mf <;> simp [hb]

/-- The session left by the scan is the last accepted candidate, or the
prior session when no remaining candidate is accepted. -/
theorem runScanFrom_inst (sup : Bool) :
    ∀ (files : List RuntimeManifestFile) (i : Nat) (s : ScanState),
      (runScanFrom sup i files s).inst.map (fun sess => sess.boundIdx) =
        orIdx (lastBindFrom sup i files) (s.inst.map (fun sess => sess.boundIdx))
  | [], i, s => by simp [runScanFrom, lastBindFrom, orIdx]
  | mf :: rest, i, s => by
    rw [runScanFrom, runScanFrom_inst sup rest (i + 1) (tryLoadingSingleRuntime sup i mf s)]
    rw [tryLoadingSingleRuntime_eq]
    cases hb : candidateBinds sup mf
    · simp only [Bool.false_eq_true, if_false, lastBindFrom, hb]
      cases hl : lastBindFrom sup (i + 1) rest <;> simp [orIdx]
    · simp only [if_true, lastBindFrom, hb]
      cases hl : lastBindFrom sup (i + 1) rest <;> simp [orIdx, boundSessionModel]

/-- When no remaining candidate is accepted there is no last-binding index. -/
theorem lastBindFrom_eq_none (sup : Bool) :
    ∀ (files : List RuntimeManifestFile) (i : Nat),
      (∀ mf ∈ files, candidateBinds sup mf = false) →
      lastBindFrom sup i files = none
  | [], _, _ => rfl
  | mf :: rest, i, h => by
    rw [lastBindFrom, lastBindFrom_eq_none sup rest (i + 1)
      (fun mf' hmf' => h mf' (List.mem_cons_of_mem mf hmf'))]
    simp [h mf (List.mem_cons_self mf rest)]

/-- When nothing is bound yet and the platform-init gate passes, a
`LoadRuntime` call runs the scan from the state seeded with the manifest
enumeration's result, and its result is the scanned error unless nothing
bound, in which case it is `XR_ERROR_INSTANCE_LOST` (lines 276-279). -/
theorem loadRuntime_scan_shape (sup ini : Bool) (find : FindManifestFilesResult)
    (hfind : XR_FAILED find.result = false) (hini : (sup && !ini) = false) :
    (loadRuntime sup ini none find).inst =
      (runScanFrom sup 0 find.files ⟨none, false, find.result, []⟩).inst ∧
    (loadRuntime sup ini none find).opened =
      (runScanFrom sup 0 find.files ⟨none, false, find.result, []⟩).opened ∧
    (loadRuntime sup ini none find).result =
      (if (runScanFrom sup 0 find.files ⟨none, false, find.result, []⟩).anyLoaded
       then (runScanFrom sup 0 find.files ⟨none, false, find.result, []⟩).lastError
       else XR_ERROR_INSTANCE_LOST) := by
  unfold loadRuntime
  simp only [hini, hfind, Bool.false_eq_true, if_false]
  cases h : (runScanFrom sup 0 find.files ⟨none, false, find.result, []⟩).anyLoaded <;>
    simp [h]

/-- A negotiation response the loader accepts. -/
def acceptingResponse : XrNegotiateRuntimeRequest :=
  { getInstanceProcAddrIsNull := false
    runtimeInterfaceVersion := 1
    runtimeApiVersion := XR_MAKE_VERSION 1 0 0 }

/-- A candidate whose library opens and whose negotiation is accepted. -/
def goodManifest : RuntimeManifestFile :=
  { openOk := true, hasInitializeFn := false, initializeResult := XR_SUCCESS
    hasNegotiateFn := true, negotiateResult := XR_SUCCESS
    runtimeInfo := acceptingResponse, runtimeExtensions := [] }

/-- A candidate whose library opens but whose negotiation response carries
a null entry-point getter, so validation rejects it. -/
def nullGipaManifest : RuntimeManifestFile :=
  { goodManifest with
      runtimeInfo := { acceptingResponse with getInstanceProcAddrIsNull := true } }

/-- A candidate whose forwarded `xrInitializeLoaderKHR` call fails. -/
def initFailManifest : RuntimeManifestFile :=
  { goodManifest with
      hasInitializeFn := true, initializeResult := XR_ERROR_VALIDATION_FAILURE }

/-- C1 counterexample: with two candidates that both negotiate
successfully, the scan opens the second candidate's library even though the
first already bound, and the session left behind is the SECOND candidate
(index 1), not the first successfully negotiating one (index 0). -/
theorem loadRuntime_binds_second_candidate_and_opens_all :
    candidateBinds false goodManifest = true ∧
    (loadRuntime false true none ⟨XR_SUCCESS, [goodManifest, goodManifest]⟩).inst.map
      (fun sess => sess.boundIdx) = some 1 ∧
    (loadRuntime false true none ⟨XR_SUCCESS, [goodManifest, goodManifest]⟩).opened
      = [0, 1] := by
  decide

/-- C1 (amended): the loop at lines 267-269 has no break and
`TryLoadingSingleRuntime` has no already-bound check, so every candidate's
library open is attempted, in manifest order, regardless of earlier
bindings, and when several candidates negotiate successfully the LAST one
is the bound backend (each acceptance replaces the previous session). -/
theorem loadRuntime_attempts_all_and_last_binding_wins (sup ini : Bool)
    (find : FindManifestFilesResult)
    (hfind : XR_FAILED find.result = false)
    (hini : (sup && !ini) = false) :
    (loadRuntime sup ini none find).opened = List.range find.files.length ∧
    (loadRuntime sup ini none find).inst.map (fun sess => sess.boundIdx) =
      lastBindFrom sup 0 find.files := by
  obtain ⟨hi, ho, _⟩ := loadRuntime_scan_shape sup ini find hfind hini
  constructor
  · rw [ho, runScanFrom_opened]
    simp [List.range_eq_range']
  · rw [hi, runScanFrom_inst]
    cases hl : lastBindFrom sup 0 find.files <;> simp [orIdx]

/-- Witness for the amended C1 at a concrete two-candidate scan. -/
theorem loadRuntime_attempts_all_and_last_binding_wins_witness :
    XR_FAILED XR_SUCCESS = false ∧ ((false && !true) = false) ∧
    ((loadRuntime false true none ⟨XR_SUCCESS, [goodManifest, goodManifest]⟩).opened =
        List.range 2 ∧
      (loadRuntime false true none ⟨XR_SUCCESS, [goodManifest, goodManifest]⟩).inst.map
        (fun sess => sess.boundIdx) = lastBindFrom false 0 [goodManifest, goodManifest]) :=
  ⟨by decide, by decide, by
    have h := loadRuntime_attempts_all_and_last_binding_wins false true
      ⟨XR_SUCCESS, [goodManifest, goodManifest]⟩ (by decide) (by decide)
    simpa using h⟩

/-- C2 counterexample: a single candidate opens and is rejected by
negotiation validation with `XR_ERROR_FILE_CONTENTS_INVALID`, yet
`LoadRuntime` returns `XR_ERROR_INSTANCE_LOST`, because lines 276-279
overwrite `last_error` whenever nothing bound. -/
theorem loadRuntime_returns_instance_lost_despite_rejection :
    nullGipaManifest.openOk = true ∧
    candidateNegotiationResult nullGipaManifest = XR_ERROR_FILE_CONTENTS_INVALID ∧
    (loadRuntime false true none ⟨XR_SUCCESS, [nullGipaManifest]⟩).result =
      XR_ERROR_INSTANCE_LOST ∧
    XR_ERROR_INSTANCE_LOST ≠ XR_ERROR_FILE_CONTENTS_INVALID := by
  decide

/-- C2 (amended): whenever no candidate is bound — whether every library
failed to open, or some opened but every negotiation was rejected —
`LoadRuntime` returns `XR_ERROR_INSTANCE_LOST`; the negotiation-specific
rejection codes recorded during the scan are never surfaced. -/
theorem loadRuntime_no_binding_returns_instance_lost (sup ini : Bool)
    (find : FindManifestFilesResult)
    (hini : (sup && !ini) = false)
    (hnone : ∀ mf ∈ find.files, candidateBinds sup mf = false) :
    (loadRuntime sup ini none find).result = XR_ERROR_INSTANCE_LOST ∧
    (loadRuntime sup ini none find).inst = none := by
  by_cases hfind : XR_FAILED find.result = true
  · unfold loadRuntime
    simp [hini, hfind]
  · have hfind' : XR_FAILED find.result = false := Bool.eq_false_iff.mpr hfind
    obtain ⟨hi, _, hr⟩ := loadRuntime_scan_shape sup ini find hfind' hini
    have hanyf : (find.files.any fun mf => candidateBinds sup mf) = false := by
      rw [List.any_eq_false]
      intro mf hmf
      simp [hnone mf hmf]
    constructor
    · rw [hr, runScanFrom_anyLoaded]
      simp [hanyf]
    · rw [hi]
      have hmap := runScanFrom_inst sup find.files 0 ⟨none, false, find.result, []⟩
      rw [lastBindFrom_eq_none sup find.files 0 hnone] at hmap
      simpa [orIdx] using hmap

/-- Witness for the amended C2: one opened-but-rejected candidate. -/
theorem loadRuntime_no_binding_returns_instance_lost_witness :
    ((false && !true) = false) ∧
    (∀ mf ∈ [nullGipaManifest], candidateBinds false mf = false) ∧
    ((loadRuntime false true none ⟨XR_SUCCESS, [nullGipaManifest]⟩).result =
        XR_ERROR_INSTANCE_LOST ∧
      (loadRuntime false true none ⟨XR_SUCCESS, [nullGipaManifest]⟩).inst = none) :=
  ⟨by decide, by decide,
    loadRuntime_no_binding_returns_instance_lost false true
      ⟨XR_SUCCESS, [nullGipaManifest]⟩ (by decide) (by decide)⟩

/-- C6: `LoadRuntime` is idempotent — with a session already bound it
returns `XR_SUCCESS` immediately, the manifest collaborator is not
consulted, no library open is attempted, and the session is unchanged
(lines 245-248). -/
theorem loadRuntime_idempotent_when_bound (sup ini : Bool) (sess : RuntimeSessionModel)
    (find : FindManifestFilesResult) :
    loadRuntime sup ini (some sess) find =
      { result := XR_SUCCESS, inst := some sess, opened := []
        manifestConsulted := false } :=
  rfl

/-- Claim-side rejection condition (spec wording): null entry-point getter,
out-of-range negotiated interface version, API major mismatch, or the
zero-major zero-minor sentinel. -/
def negotiationRejectCondition (info : XrNegotiateRuntimeRequest) : Prop :=
  info.getInstanceProcAddrIsNull = true ∨
  info.runtimeInterfaceVersion ≤ 0 ∨
  XR_CURRENT_LOADER_RUNTIME_VERSION < info.runtimeInterfaceVersion ∨
  XR_VERSION_MAJOR info.runtimeApiVersion ≠ XR_VERSION_MAJOR XR_CURRENT_API_VERSION ∨
  (XR_VERSION_MAJOR info.runtimeApiVersion = 0 ∧
    XR_VERSION_MINOR info.runtimeApiVersion = 0)

instance (info : XrNegotiateRuntimeRequest) : Decidable (negotiationRejectCondition info) := by
  unfold negotiationRejectCondition
  infer_instance

/-- The source's validation chain is the claim-side condition. -/
theorem validateNegotiationResponse_eq (info : XrNegotiateRuntimeRequest) (res : Int) :
    validateNegotiationResponse info res =
      if negotiationRejectCondition info then XR_ERROR_FILE_CONTENTS_INVALID else res := by
  unfold validateNegotiationResponse negotiationRejectCondition
  by_cases h1 : info.getInstanceProcAddrIsNull = true <;>
  by_cases h2a : info.runtimeInterfaceVersion = 0 <;>
  by_cases h2b : XR_CURRENT_LOADER_RUNTIME_VERSION < info.runtimeInterfaceVersion <;>
  by_cases h3a : XR_VERSION_MAJOR info.runtimeApiVersion =
    XR_VERSION_MAJOR XR_CURRENT_API_VERSION <;>
  by_cases h3b : XR_VERSION_MAJOR info.runtimeApiVersion = 0 ∧
    XR_VERSION_MINOR info.runtimeApiVersion = 0 <;>
  simp [h1, h2a, h2b, h3a, h3b]

/-- C5: negotiation response validation, given a succeeded negotiate call,
rejects with `XR_ERROR_FILE_CONTENTS_INVALID` exactly when the entry-point
getter is null, or the negotiated interface version is ≤ 0 or above the
loader's maximum known interface version, or the returned API major
version differs from the loader's, or the returned API version is the
zero-major zero-minor sentinel; any other successful response is accepted
unchanged. -/
theorem negotiation_validation_rejects_exactly (info : XrNegotiateRuntimeRequest)
    (res : Int) (hres : XR_SUCCEEDED res = true) :
    (validateNegotiationResponse info res = XR_ERROR_FILE_CONTENTS_INVALID ↔
      negotiationRejectCondition info) ∧
    (¬negotiationRejectCondition info → validateNegotiationResponse info res = res) := by
  have hge : (0 : Int) ≤ res := by
    unfold XR_SUCCEEDED at hres
    exact of_decide_eq_true hres
  by_cases hc : negotiationRejectCondition info
  · exact ⟨by simp [validateNegotiationResponse_eq, hc], fun hnc => absurd hc hnc⟩
  · have hne : res ≠ XR_ERROR_FILE_CONTENTS_INVALID := by
      unfold XR_ERROR_FILE_CONTENTS_INVALID
      omega
    exact ⟨by simp [validateNegotiationResponse_eq, hc, hne],
      fun _ => by simp [validateNegotiationResponse_eq, hc]⟩

/-- Witness for C5 at an accepted response and at a rejected one. -/
theorem negotiation_validation_rejects_exactly_witness :
    XR_SUCCEEDED XR_SUCCESS = true ∧
    (¬negotiationRejectCondition acceptingResponse →
      validateNegotiationResponse acceptingResponse XR_SUCCESS = XR_SUCCESS) ∧
    (validateNegotiationResponse nullGipaManifest.runtimeInfo XR_SUCCESS =
        XR_ERROR_FILE_CONTENTS_INVALID ↔
      negotiationRejectCondition nullGipaManifest.runtimeInfo) :=
  ⟨by decide,
    (negotiation_validation_rejects_exactly acceptingResponse XR_SUCCESS (by decide)).2,
    (negotiation_validation_rejects_exactly nullGipaManifest.runtimeInfo XR_SUCCESS
      (by decide)).1⟩

/-- C8 counterexample: after candidate 0 binds, candidate 1's pre-init
failure still overwrites the shared `last_error` slot (line 140 is not
guarded by `any_loaded`), so `LoadRuntime` returns that failure even though
a backend is bound. -/
theorem preinit_failure_clobbers_last_error_after_binding :
    candidateBinds true goodManifest = true ∧
    (loadRuntime true true none ⟨XR_SUCCESS, [goodManifest, initFailManifest]⟩).inst.map
      (fun sess => sess.boundIdx) = some 0 ∧
    (loadRuntime true true none ⟨XR_SUCCESS, [goodManifest, initFailManifest]⟩).result =
      XR_ERROR_VALIDATION_FAILURE ∧
    XR_ERROR_VALIDATION_FAILURE ≠ XR_SUCCESS := by
  decide

/-- C8 (amended): library-open failures and negotiation rejections update
the shared last-error slot only when no backend has bound yet; a pre-init
(`xrInitializeLoaderKHR` forwarding) failure updates it unconditionally,
even after a backend has bound; when nothing is bound yet, a failing
candidate records its specific failure code; and no per-candidate failure
ever aborts the scan — every remaining candidate is still attempted. -/
theorem scan_error_recording_characterization (sup : Bool) (idx : Nat)
    (mf : RuntimeManifestFile) (s : ScanState) :
    (s.anyLoaded = true → preInitFailure sup mf = false → candidateBinds sup mf = false →
      (tryLoadingSingleRuntime sup idx mf s).lastError = s.lastError) ∧
    (preInitFailure sup mf = true →
      (tryLoadingSingleRuntime sup idx mf s).lastError = mf.initializeResult) ∧
    (s.anyLoaded = false → candidateBinds sup mf = false →
      (tryLoadingSingleRuntime sup idx mf s).lastError = candidateFailureCode sup mf) ∧
    (∀ (files : List RuntimeManifestFile) (i : Nat) (s' : ScanState),
      (runScanFrom sup i files s').opened = s'.opened ++ List.range' i files.length) := by
  refine ⟨?_, ?_, ?_, runScanFrom_opened sup⟩
  · intro ha hp hb
    rw [tryLoadingSingleRuntime_eq]
    simp [hb, ha, hp]
  · intro hp
    have hp' := hp
    unfold preInitFailure at hp'
    simp only [Bool.and_eq_true] at hp'
    obtain ⟨⟨⟨hsup, hopen⟩, hinit⟩, hfail⟩ := hp'
    have hcond : (sup && mf.hasInitializeFn && XR_FAILED mf.initializeResult) = true := by
      simp [hsup, hinit, hfail]
    have hb : candidateBinds sup mf = false := by
      unfold candidateBinds
      simp [hcond]
    rw [tryLoadingSingleRuntime_eq]
    simp only [hb, Bool.false_eq_true, if_false]
    simp [hp, candidateFailureCode, hopen, hcond]
  · intro ha hb
    rw [tryLoadingSingleRuntime_eq]
    simp [hb, ha]

/-- Witness for the amended C8: a pre-init failure overwrites the slot even
with a backend bound. -/
theorem scan_error_recording_characterization_witness :
    preInitFailure true initFailManifest = true ∧
    (tryLoadingSingleRuntime true 1 initFailManifest
        { inst := some (boundSessionModel 0 goodManifest), anyLoaded := true
          lastError := XR_SUCCESS, opened := [0] }).lastError =
      initFailManifest.initializeResult :=
  ⟨by decide,
    (scan_error_recording_characterization true 1 initFailManifest
      { inst := some (boundSessionModel 0 goodManifest), anyLoaded := true
        lastError := XR_SUCCESS, opened := [0] }).2.1 (by decide)⟩

/-! ## Dispatch-table cache and messenger registry
(`RuntimeInterface::CreateInstance` / `DestroyInstance` /
`GetDispatchTable` / `GetDebugUtilsMessengerDispatchTable` /
`TrackDebugMessenger` / `ForgetDebugMessenger`, lines 291-422).

Handles (`XrInstance`, `XrDebugUtilsMessengerEXT`) are opaque; model them
as `Nat` with `0` for `XR_NULL_HANDLE`.  The two `std::unordered_map`
members are association lists with unique keys (insert overwrites). -/

/-- Lookup following `unordered_map::find`. -/
def mapFind {β : Type} : List (Nat × β) → Nat → Option β
  | [], _ => none
  | (k', v) :: rest, k => if k' = k then some v else mapFind rest k

/-- Assignment through `unordered_map::operator[]`: overwrite or append. -/
def mapInsert {β : Type} : List (Nat × β) → Nat → β → List (Nat × β)
  | [], k, v => [(k, v)]
  | (k', v') :: rest, k, v =>
    if k' = k then (k, v) :: rest else (k', v') :: mapInsert rest k v

/-- Removal following `unordered_map::erase(key)`: drop the entry with that key. -/
def mapErase {β : Type} (m : List (Nat × β)) (k : Nat) : List (Nat × β) :=
  m.filter (fun p => p.1 != k)

/-- Modelled from the spec: `XrGeneratedDispatchTable` and
`GeneratedXrPopulateDispatchTable` live in generated code
(`xr_generated_dispatch_table.h/.c`) that is not under `src/`.  The spec
treats the table as an opaque per-instance aggregate and its population as
a step that "exists, succeeds, or fails"; the call site at line 377 is a
plain statement whose result, if any, is discarded.  The model therefore
keeps only a flag recording whether population failed. -/
structure XrGeneratedDispatchTable where
  populateFailed : Bool
deriving DecidableEq, Repr

/-- Mutable members of a bound `RuntimeInterface`, plus an event trace of
the handles on which the runtime's `xrDestroyInstance` was invoked. -/
structure RuntimeInterfaceState where
  dispatch_table_map : List (Nat × XrGeneratedDispatchTable)
  messenger_to_instance_map : List (Nat × Nat)
  destroy_calls : List Nat
deriving DecidableEq, Repr

/-- A freshly constructed `RuntimeInterface` (line 317): both maps empty. -/
def emptyRuntimeInterfaceState : RuntimeInterfaceState :=
  { dispatch_table_map := [], messenger_to_instance_map := [], destroy_calls := [] }

/-- Behaviour of the runtime during one `CreateInstance` call: the result
of `rt_xrCreateInstance`, the handle it writes into `*instance` on success,
and whether dispatch-table population fails. -/
structure CreateInstanceCall where
  createResult : Int
  createdHandle : Nat
  populateFails : Bool
deriving DecidableEq, Repr

/-- Observable outcome of `RuntimeInterface::CreateInstance`: the returned
result, the value left in `*instance`, and the updated state. -/
structure CreateInstanceOutcome where
  result : Int
  instanceOut : Nat
  state : RuntimeInterfaceState
deriving DecidableEq, Repr

/-- Source `RuntimeInterface::CreateInstance` (lines 368-391).  `res` is set only
by `rt_xrCreateInstance` (line 373); population's outcome never reaches it,
so the rollback branch at line 383 tests `XR_FAILED res && create_succeeded`
with `create_succeeded = XR_SUCCEEDED res`. -/
def createInstance (s : RuntimeInterfaceState) (call : CreateInstanceCall) :
    CreateInstanceOutcome :=
  let res := call.createResult
  let create_succeeded := XR_SUCCEEDED res
  let instVal := if create_succeeded then call.createdHandle else 0
  let dispatch_table : XrGeneratedDispatchTable := ⟨call.populateFails⟩
  let s1 :=
    if create_succeeded then
      { s with dispatch_table_map :=
          mapInsert s.dispatch_table_map call.createdHandle dispatch_table }
    else s
  if XR_FAILED res && create_succeeded then
    -- lines 382-388: "If the failure occurred during the populate, clean up
    -- the instance we had picked up from the runtime"
    { result := res, instanceOut := 0
      state := { s1 with destroy_calls := s1.destroy_calls ++ [instVal] } }
  else
    { result := res, instanceOut := instVal, state := s1 }

/-- Source `RuntimeInterface::DestroyInstance` (lines 393-409): for a non-null
handle, erase the cache entry if present and invoke the runtime's
`xrDestroyInstance` regardless; always return `XR_SUCCESS`. -/
def destroyInstance (s : RuntimeInterfaceState) (inst : Nat) :
    Int × RuntimeInterfaceState :=
  if inst ≠ 0 then
    (XR_SUCCESS,
      { s with dispatch_table_map := mapErase s.dispatch_table_map inst
               destroy_calls := s.destroy_calls ++ [inst] })
  else (XR_SUCCESS, s)

/-- Source `RuntimeInterface::GetDispatchTable` (lines 295-303). -/
def getDispatchTable (s : RuntimeInterfaceState) (inst : Nat) :
    Option XrGeneratedDispatchTable :=
  mapFind s.dispatch_table_map inst

/-- Source `RuntimeInterface::GetDebugUtilsMessengerDispatchTable` (lines
305-315): resolve the owning instance, defaulting to `XR_NULL_HANDLE` when
unmapped, then delegate to `GetDispatchTable`. -/
def getDebugUtilsMessengerDispatchTable (s : RuntimeInterfaceState) (messenger : Nat) :
    Option XrGeneratedDispatchTable :=
  let runtime_instance :=
    match mapFind s.messenger_to_instance_map messenger with
    | some inst => inst
    | none => 0
  getDispatchTable s runtime_instance

/-- Source `RuntimeInterface::TrackDebugMessenger` (lines 411-415). -/
def trackDebugMessenger (s : RuntimeInterfaceState) (inst messenger : Nat) :
    RuntimeInterfaceState :=
  { s with messenger_to_instance_map :=
      mapInsert s.messenger_to_instance_map messenger inst }

/-- Source `RuntimeInterface::ForgetDebugMessenger` (lines 417-422): erase only
for a non-null messenger handle. -/
def forgetDebugMessenger (s : RuntimeInterfaceState) (messenger : Nat) :
    RuntimeInterfaceState :=
  if messenger ≠ 0 then
    { s with messenger_to_instance_map :=
        mapErase s.messenger_to_instance_map messenger }
  else s

theorem mapFind_insert_self {β : Type} : ∀ (m : List (Nat × β)) (k : Nat) (v : β),
    mapFind (mapInsert m k v) k = some v
  | [], k, v => by simp [mapInsert, mapFind]
  | (k', v') :: rest, k, v => by
    by_cases h : k' = k
    · simp [mapInsert, h, mapFind]
    · simp [mapInsert, h, mapFind, mapFind_insert_self rest k v]

theorem mapFind_insert_ne {β : Type} (k2 k : Nat) (v : β) (hne : k2 ≠ k) :
    ∀ m : List (Nat × β), mapFind (mapInsert m k v) k2 = mapFind m k2
  | [] => by
    simp [mapInsert, mapFind, hne.symm]
  | (k', v') :: rest => by
    by_cases h : k' = k
    · subst h
      simp [mapInsert, mapFind, hne.symm]
    · simp [mapInsert, h, mapFind, mapFind_insert_ne k2 k v hne rest]

theorem mapFind_erase_self {β : Type} : ∀ (m : List (Nat × β)) (k : Nat),
    mapFind (mapErase m k) k = none
  | [], _ => rfl
  | (k', v') :: rest, k => by
    have ih := mapFind_erase_self rest k
    unfold mapErase at ih ⊢
    by_cases h : k' = k <;> simp [List.filter_cons, h, mapFind, ih]

theorem mapFind_erase_ne {β : Type} (k2 k : Nat) (hne : k2 ≠ k) :
    ∀ m : List (Nat × β), mapFind (mapErase m k) k2 = mapFind m k2
  | [] => rfl
  | (k', v') :: rest => by
    have ih := mapFind_erase_ne k2 k hne rest
    unfold mapErase at ih ⊢
    by_cases h : k' = k
    · subst h
      simp [List.filter_cons, mapFind, hne.symm, ih]
    · simp [List.filter_cons, h, mapFind, ih]

theorem mapErase_idem {β : Type} : ∀ (m : List (Nat × β)) (k : Nat),
    mapErase (mapErase m k) k = mapErase m k
  | [], _ => rfl
  | (k', v') :: rest, k => by
    have ih := mapErase_idem rest k
    unfold mapErase at ih ⊢
    by_cases h : k' = k <;> simp [List.filter_cons, h, ih]

/-- One application-visible operation on the bound session's cache. -/
inductive InstanceOp where
  | createOp (call : CreateInstanceCall)
  | destroyOp (handle : Nat)
deriving DecidableEq, Repr

def applyInstanceOp (s : RuntimeInterfaceState) : InstanceOp → RuntimeInterfaceState
  | .createOp call => (createInstance s call).state
  | .destroyOp h => (destroyInstance s h).2

def runInstanceOps : List InstanceOp → RuntimeInterfaceState → RuntimeInterfaceState
  | [], s => s
  | op :: rest, s => runInstanceOps rest (applyInstanceOp s op)

/-- Claim-side notion of liveness for one step: a handle becomes live on a
successful creation returning it and dead on a destroy of it. -/
def liveStep (h : Nat) (alive : Bool) : InstanceOp → Bool
  | .createOp call =>
    if XR_SUCCEEDED call.createResult && call.createdHandle == h then true else alive
  | .destroyOp h2 => if h2 == h then false else alive

/-- Claim-side liveness: `h` was created by a successful `CreateInstance`
and not destroyed afterwards. -/
def liveAfter (ops : List InstanceOp) (h : Nat) : Bool :=
  ops.foldl (liveStep h) false

/-- The rollback guard at line 383 can never hold: `res` is exactly the
`rt_xrCreateInstance` result, so it cannot be failed and succeeded at
once. -/
theorem failed_and_succeeded_false (r : Int) : (XR_FAILED r && XR_SUCCEEDED r) = false := by
  by_cases h : r < 0
  · simp [XR_FAILED, XR_SUCCEEDED, h, not_le.mpr h]
  · simp [XR_FAILED, XR_SUCCEEDED, h]

theorem createInstance_state (s : RuntimeInterfaceState) (call : CreateInstanceCall) :
    (createInstance s call).state =
      if XR_SUCCEEDED call.createResult then
        { s with dispatch_table_map :=
            mapInsert s.dispatch_table_map call.createdHandle ⟨call.populateFails⟩ }
      else s := by
  unfold createInstance
  simp [failed_and_succeeded_false]

theorem applyInstanceOp_find (h : Nat) (hne : h ≠ 0) (s : RuntimeInterfaceState) :
    ∀ op : InstanceOp,
      (mapFind (applyInstanceOp s op).dispatch_table_map h).isSome =
        liveStep h (mapFind s.dispatch_table_map h).isSome op
  | .createOp call => by
    simp only [applyInstanceOp, liveStep]
    rw [createInstance_state]
    by_cases hs : XR_SUCCEEDED call.createResult = true
    · by_cases hh : call.createdHandle = h
      · subst hh
        simp [hs, mapFind_insert_self]
      · simp [hs, hh,
          mapFind_insert_ne h call.createdHandle
            (XrGeneratedDispatchTable.mk call.populateFails) (Ne.symm hh)]
    · have hs' : XR_SUCCEEDED call.createResult = false := Bool.eq_false_iff.mpr hs
      simp [hs']
  | .destroyOp h2 => by
    simp only [applyInstanceOp, liveStep]
    unfold destroyInstance
    by_cases h20 : h2 = 0
    · subst h20
      simp [Ne.symm hne]
    · by_cases h2h : h2 = h
      · subst h2h
        simp [h20, hne, mapFind_erase_self]
      · simp [h20, h2h, mapFind_erase_ne h h2 (Ne.symm h2h)]

theorem runInstanceOps_find_isSome (h : Nat) (hne : h ≠ 0) :
    ∀ (ops : List InstanceOp) (s : RuntimeInterfaceState),
      (mapFind (runInstanceOps ops s).dispatch_table_map h).isSome =
        ops.foldl (liveStep h) (mapFind s.dispatch_table_map h).isSome
  | [], s => rfl
  | op :: rest, s => by
    rw [runInstanceOps, List.foldl_cons,
      runInstanceOps_find_isSome h hne rest (applyInstanceOp s op),
      applyInstanceOp_find h hne s op]

/-- C4: for every sequence of `CreateInstance`/`DestroyInstance` calls
starting from a fresh session, `GetDispatchTable h` is non-null exactly
when `h` is live (created by a successful creation and not destroyed
since); and a second `DestroyInstance` on the same handle leaves the cache
unchanged and still returns `XR_SUCCESS`.  (`h ≠ 0` because a successful
creation yields a valid, non-null handle.) -/
theorem dispatch_table_cache_consistency (ops : List InstanceOp) (h : Nat)
    (s : RuntimeInterfaceState) (hne : h ≠ 0) :
    ((getDispatchTable (runInstanceOps ops emptyRuntimeInterfaceState) h).isSome =
      liveAfter ops h) ∧
    ((destroyInstance (destroyInstance s h).2 h).1 = XR_SUCCESS ∧
      (destroyInstance (destroyInstance s h).2 h).2.dispatch_table_map =
        (destroyInstance s h).2.dispatch_table_map) := by
  refine ⟨?_, ?_⟩
  · unfold getDispatchTable liveAfter
    rw [runInstanceOps_find_isSome h hne ops emptyRuntimeInterfaceState]
    rfl
  · simp [destroyInstance, hne, mapErase_idem]

/-- Witness for C4: create handle 7, destroy it, destroy it again. -/
theorem dispatch_table_cache_consistency_witness :
    (7 : Nat) ≠ 0 ∧
    (((getDispatchTable (runInstanceOps
          [InstanceOp.createOp ⟨XR_SUCCESS, 7, false⟩, InstanceOp.destroyOp 7]
          emptyRuntimeInterfaceState) 7).isSome =
        liveAfter [InstanceOp.createOp ⟨XR_SUCCESS, 7, false⟩, InstanceOp.destroyOp 7] 7) ∧
      ((destroyInstance (destroyInstance emptyRuntimeInterfaceState 7).2 7).1 =
          XR_SUCCESS ∧
        (destroyInstance (destroyInstance emptyRuntimeInterfaceState 7).2 7).2.dispatch_table_map =
          (destroyInstance emptyRuntimeInterfaceState 7).2.dispatch_table_map)) :=
  ⟨by decide,
    dispatch_table_cache_consistency
      [InstanceOp.createOp ⟨XR_SUCCESS, 7, false⟩, InstanceOp.destroyOp 7] 7
      emptyRuntimeInterfaceState (by decide)⟩

/-- C3: the failing input.  Dispatch-table population fails right after a
successful backend instance creation (handle 42), yet `CreateInstance`
returns `XR_SUCCESS`, leaves the created handle in `*instance`, caches the
mis-populated table, and never invokes the backend's destroy entry point —
the rollback branch at line 383 is unreachable because `res` is never
updated after line 373, contradicting the claim and the branch's own
comment. -/
theorem createInstance_ignores_populate_failure :
    createInstance emptyRuntimeInterfaceState ⟨XR_SUCCESS, 42, true⟩ =
      { result := XR_SUCCESS, instanceOut := 42
        state := { dispatch_table_map := [(42, ⟨true⟩)]
                   messenger_to_instance_map := [], destroy_calls := [] } } := by
  decide

/-- C10: `DestroyInstance` on the null handle is a complete no-op apart
from returning `XR_SUCCESS` — cache untouched and the backend's destroy
entry point not invoked — whereas on a non-null handle the backend destroy
is invoked regardless of whether a cache entry existed. -/
theorem destroyInstance_null_handle_noop (s : RuntimeInterfaceState) (h : Nat)
    (hne : h ≠ 0) :
    destroyInstance s 0 = (XR_SUCCESS, s) ∧
    (destroyInstance s h).1 = XR_SUCCESS ∧
    (destroyInstance s h).2.destroy_calls = s.destroy_calls ++ [h] := by
  refine ⟨?_, ?_, ?_⟩ <;> simp [destroyInstance, hne]

/-- Witness for C10 on a state with no cache entry for the handle. -/
theorem destroyInstance_null_handle_noop_witness :
    (5 : Nat) ≠ 0 ∧
    (destroyInstance emptyRuntimeInterfaceState 0 =
        (XR_SUCCESS, emptyRuntimeInterfaceState) ∧
      (destroyInstance emptyRuntimeInterfaceState 5).1 = XR_SUCCESS ∧
      (destroyInstance emptyRuntimeInterfaceState 5).2.destroy_calls =
        emptyRuntimeInterfaceState.destroy_calls ++ [5]) :=
  ⟨by decide, destroyInstance_null_handle_noop emptyRuntimeInterfaceState 5 (by decide)⟩

/-- C9: a messenger handle with no registry entry resolves its owner to the
null-instance sentinel and the lookup returns null rather than an error,
provided (as the claim notes) the null instance has no cache entry; in
particular this holds right after `ForgetDebugMessenger` on a non-null
messenger handle. -/
theorem messenger_orphan_lookup_returns_none (s : RuntimeInterfaceState) (m : Nat)
    (hnull : mapFind s.dispatch_table_map 0 = none) :
    (mapFind s.messenger_to_instance_map m = none →
      getDebugUtilsMessengerDispatchTable s m = none) ∧
    (m ≠ 0 → getDebugUtilsMessengerDispatchTable (forgetDebugMessenger s m) m = none) := by
  constructor
  · intro hm
    unfold getDebugUtilsMessengerDispatchTable getDispatchTable
    simp [hm, hnull]
  · intro hm
    unfold getDebugUtilsMessengerDispatchTable getDispatchTable forgetDebugMessenger
    simp [hm, mapFind_erase_self, hnull]

/-- State with messenger 5 tracked for instance 7, whose table is cached. -/
def messengerSampleState : RuntimeInterfaceState :=
  { dispatch_table_map := [(7, ⟨false⟩)]
    messenger_to_instance_map := [(5, 7)]
    destroy_calls := [] }

/-- Witness for C9: forgetting messenger 5 then looking it up yields null. -/
theorem messenger_orphan_lookup_returns_none_witness :
    mapFind messengerSampleState.dispatch_table_map 0 = none ∧
    (5 : Nat) ≠ 0 ∧
    getDebugUtilsMessengerDispatchTable (forgetDebugMessenger messengerSampleState 5) 5 =
      none :=
  ⟨by decide, by decide,
    (messenger_orphan_lookup_returns_none messengerSampleState 5 (by decide)).2 (by decide)⟩
